import Mathlib

/-!
Shallow embedding of the PyTango-tutorial repository's detector acquisition
logic, translated from the Python sources:

* `detectors_as_device/tango_servers.py` — `DetectorDevice` (per-detector
  configuration, acquisition state machine, simulated-image generator) and
  `MicroscopeSystemDevice` (connection handling);
* `Device_AS_twin.py` — `DeviceASTwin` (coordinator with three inlined
  detectors A/B/C, `Connect` and `GetImage` commands);
* `Autoscript-min-Pytango/src/Microscope.py` — `Microscope.get_image`
  (name-normalised registry dispatch) together with the HAADF settings device.

Modelling conventions: Python floats become `ℚ`; numpy arrays become
`List (List ℚ)` row-major; Python exceptions become the inductive `PyError`
whose constructors carry the values interpolated into the source messages;
Tango `set_state` side effects are recorded both in the final device record
and in an explicit trace of the states set during a call; nondeterministic
sources (`np.random.rand`, `rng.integers`) and `np.sqrt` become explicit
function parameters; the fallible body of a `try:` block becomes an explicit
`Except` parameter so that both branches of the source's `except:` handler
are in the model.
-/

/-- Tango `DevState` values used by the servers. -/
inductive DevState where
  | INIT
  | STANDBY
  | RUNNING
  | FAULT
  | ON
  | OFF
deriving DecidableEq, Repr

/-- Python exceptions raised by the servers: one constructor per kind of
raise site, carrying the values that the source interpolates into the
message (e.g. `acquisitionTooLong` carries the computed total time and the
600 s ceiling that appear in `f"Acquisition too long: {total_time:.1f}s
(max 600s)"`).  `underlying` is an exception propagated out of a `try:`
body by a bare `raise`. -/
inductive PyError where
  | notConnected
  | unknownDetector (requested : String) (available : List String)
  | detectorInactive (name : String)
  | acquisitionTooLong (totalTime ceiling : ℚ)
  | invalidParameter (msg : String)
  | valueError (msg : String)
  | underlying (msg : String)
deriving DecidableEq, Repr

/-! ### Python string primitives (ASCII model of `str.lower`, `str.strip`,
`str.split`, `int`) -/

/-- Python whitespace characters recognised by `str.strip()`. -/
def pyIsSpace (c : Char) : Bool :=
  c = ' ' || c = '\t' || c = '\n' || c = '\r' || c = '\x0b' || c = '\x0c'

/-- One character of `str.lower()` (ASCII range, as in the detector names
used by the repository). -/
def pyLowerChar (c : Char) : Char :=
  if h : 65 ≤ c.toNat ∧ c.toNat ≤ 90 then
    Char.ofNatAux (c.toNat + 32) (Or.inl (by omega))
  else c

/-- `str.lower()` on the character list of a string. -/
def pyLower (l : List Char) : List Char := l.map pyLowerChar

/-- Leading-whitespace removal (the left half of `str.strip()`). -/
def stripLeft (l : List Char) : List Char := l.dropWhile pyIsSpace

/-- Trailing-whitespace removal (the right half of `str.strip()`). -/
def stripRight (l : List Char) : List Char := (stripLeft l.reverse).reverse

/-- `str.strip()`: remove whitespace from both ends. -/
def pyStrip (l : List Char) : List Char := stripRight (stripLeft l)

/-- `detector_name.lower().strip()` as performed by `Microscope.get_image`. -/
def pyNormalize (s : String) : String := String.mk (pyStrip (pyLower s.data))

/-- `str.split(sep)` for a one-character separator (Python semantics:
`"".split(":") == [""]`, `"a:b:c".split(":") == ["a","b","c"]`). -/
def splitOnChar (sep : Char) : List Char → List (List Char)
  | [] => [[]]
  | c :: rest =>
    let r := splitOnChar sep rest
    if c = sep then [] :: r
    else
      match r with
      | [] => [[c]]
      | h :: t => (c :: h) :: t

/-- The last component of `s.split(sep)`, as in
`self.get_name().split('/')[-1].split('_')[-1]`. -/
def lastPart (sep : Char) (l : List Char) : List Char :=
  (splitOnChar sep l).getLast?.getD []

/-- Decimal digits folded into a natural number. -/
def digitsToNat (l : List Char) : ℕ :=
  l.foldl (fun acc c => acc * 10 + (c.toNat - 48)) 0

/-- A nonempty all-digit character list, or `none`. -/
def parseDigits (l : List Char) : Option ℕ :=
  if l ≠ [] ∧ l.all Char.isDigit then some (digitsToNat l) else none

/-- Python `int(s)`: strip whitespace, optional sign, decimal digits;
`none` models the `ValueError` that `int` raises on anything else. -/
def pyParseInt (s : List Char) : Option ℤ :=
  match pyStrip s with
  | [] => none
  | c :: rest =>
    if c = '-' then (parseDigits rest).map (fun n => -(n : ℤ))
    else if c = '+' then (parseDigits rest).map (fun n => (n : ℤ))
    else (parseDigits (c :: rest)).map (fun n => (n : ℤ))

/-! ### numpy primitives used by the simulated-image generators -/

/-- `np.clip(x, lo, hi)` (`np.minimum(hi, np.maximum(x, lo))`). -/
def clip (x lo hi : ℚ) : ℚ := min (max x lo) hi

/-- `np.linspace(a, b, n)`: `n` evenly spaced samples from `a` to `b`,
endpoint included (`n = 1` gives `[a]`, `n = 0` gives `[]`). -/
def linspace (a b : ℚ) (n : ℕ) : List ℚ :=
  if n ≤ 1 then (List.range n).map (fun _ => a)
  else (List.range n).map (fun (i : ℕ) => a + (b - a) * (i : ℚ) / ((n : ℚ) - 1))

/-- Detector-A pattern of `_generate_simulated_image`: with
`X, Y = np.meshgrid(linspace(0,1,n), linspace(0,1,n))`, the image
`(X + Y) / 2 * 255`, row-major (`image[i][j] = (x[j] + y[i]) / 2 * 255`). -/
def gradientImage (n : ℕ) : List (List ℚ) :=
  (linspace 0 1 n).map (fun yi => (linspace 0 1 n).map (fun xj => (xj + yi) / 2 * 255))

/-- Detector-B pattern of `_generate_simulated_image`:
`R = np.sqrt(X**2 + Y**2)` over `linspace(-1,1,n)` grids and then
`(1 - np.clip(R, 0, 1)) * 255`.  `np.sqrt` is an explicit parameter
(floating-point square root has no exact rational counterpart). -/
def radialImage (sqrtFn : ℚ → ℚ) (n : ℕ) : List (List ℚ) :=
  (linspace (-1) 1 n).map (fun yi =>
    (linspace (-1) 1 n).map (fun xj =>
      (1 - clip (sqrtFn (xj ^ 2 + yi ^ 2)) 0 1) * 255))

/-- `np.random.rand(n, n) * 255` with the random source made explicit:
`rand i j` is the uniform `[0, 1)` sample at row `i`, column `j`. -/
def randomImage (rand : ℕ → ℕ → ℚ) (n : ℕ) : List (List ℚ) :=
  (List.range n).map (fun i => (List.range n).map (fun j => rand i j * 255))

/-! ### `DetectorDevice` (detectors_as_device/tango_servers.py) -/

/-- State of a `DetectorDevice`: the configuration written by the
attribute handlers plus the Tango state/status set by the server. -/
structure DetectorDevice where
  active : Bool
  dwell_time : ℚ
  resolution : ℤ
  detector_id : String
  devstate : DevState
  status : String
deriving DecidableEq, Repr

/-- `DetectorDevice.init_device`: defaults `active=False`,
`dwell_time=0.1`, `resolution=256`; the detector id is the last
`'_'`-separated part of the last `'/'`-separated part of the device name;
state `STANDBY`. -/
def DetectorDevice.init (device_name : String) : DetectorDevice :=
  let id := String.mk (lastPart '_' (lastPart '/' device_name.data))
  { active := false
    dwell_time := 1/10
    resolution := 256
    detector_id := id
    devstate := .STANDBY
    status := "Detector " ++ id ++ " initialized and ready." }

/-- `DetectorDevice.write_active`: no precondition, stores the flag. -/
def DetectorDevice.write_active (d : DetectorDevice) (value : Bool) : DetectorDevice :=
  { d with active := value }

/-- `DetectorDevice.write_dwell_time`: requires the detector to be active,
then requires `value > 0` (`ValueError("Dwell time must be positive")`),
then stores the value. -/
def DetectorDevice.write_dwell_time (d : DetectorDevice) (value : ℚ) :
    Except PyError DetectorDevice :=
  if !d.active then
    .error (.detectorInactive d.detector_id)
  else if value ≤ 0 then
    .error (.invalidParameter "Dwell time must be positive")
  else
    .ok { d with dwell_time := value }

/-- `DetectorDevice.write_resolution`: requires the detector to be active,
then rejects `value <= 0 or value > 4096`
(`ValueError("Resolution must be between 1 and 4096")`), then stores. -/
def DetectorDevice.write_resolution (d : DetectorDevice) (value : ℤ) :
    Except PyError DetectorDevice :=
  if !d.active then
    .error (.detectorInactive d.detector_id)
  else if value ≤ 0 ∨ value > 4096 then
    .error (.invalidParameter "Resolution must be between 1 and 4096")
  else
    .ok { d with resolution := value }

/-- `DetectorDevice._generate_simulated_image`: gradient pattern for id
`"A"`, radial pattern for id `"B"`, uniform random otherwise. -/
def DetectorDevice.generate_simulated_image (sqrtFn : ℚ → ℚ) (rand : ℕ → ℕ → ℚ)
    (d : DetectorDevice) : List (List ℚ) :=
  if d.detector_id = "A" then gradientImage d.resolution.toNat
  else if d.detector_id = "B" then radialImage sqrtFn d.resolution.toNat
  else randomImage rand d.resolution.toNat

/-- Outcome of a `GetImage` call: the returned value or raised exception,
the device record after the call, and the trace of `set_state` calls made
during the call. -/
structure AcqOutcome (σ : Type) where
  result : Except PyError (List ℚ)
  dev : σ
  trace : List DevState

/-- `DetectorDevice.GetImage` with the fallible `try:`-body work (sleep plus
image generation) abstracted into `synth`; an `Except.error e` stands for
a Python exception with text `e` escaping the body.  Checks, in order:
`active`, then `total_time = dwell_time * resolution * resolution ≤ 600`;
on entering the body sets `RUNNING`, on success flattens the image and sets
`STANDBY`, on a body error sets `FAULT`, sets the status to
`"Image acquisition failed: " ++ e` and re-raises. -/
def DetectorDevice.GetImageWith (synth : Except String (List (List ℚ)))
    (d : DetectorDevice) : AcqOutcome DetectorDevice :=
  if !d.active then
    { result := .error (.detectorInactive d.detector_id), dev := d, trace := [] }
  else
    let total_time := d.dwell_time * d.resolution * d.resolution
    if total_time > 600 then
      { result := .error (.acquisitionTooLong total_time 600), dev := d, trace := [] }
    else
      match synth with
      | .ok image =>
        { result := .ok image.flatten
          dev := { d with devstate := .STANDBY
                          status := "Detector " ++ d.detector_id ++ " ready." }
          trace := [.RUNNING, .STANDBY] }
      | .error e =>
        { result := .error (.underlying e)
          dev := { d with devstate := .FAULT
                          status := "Image acquisition failed: " ++ e }
          trace := [.RUNNING, .FAULT] }

/-- `DetectorDevice.GetImage` with the concrete simulated-image generator
(the digital-twin path of the source, where the body cannot fail). -/
def DetectorDevice.GetImage (sqrtFn : ℚ → ℚ) (rand : ℕ → ℕ → ℚ)
    (d : DetectorDevice) : AcqOutcome DetectorDevice :=
  DetectorDevice.GetImageWith (.ok (d.generate_simulated_image sqrtFn rand)) d

/-! ### `DeviceASTwin` (Device_AS_twin.py) -/

/-- One of the three inlined detector configurations of `DeviceASTwin`. -/
structure TwinDetCfg where
  active : Bool
  dwell_time : ℚ
  resolution : ℤ
deriving DecidableEq, Repr

/-- State of the `DeviceASTwin` server: the simulated microscope handle,
the three detector configurations, and the Tango state/status. -/
structure DeviceASTwin where
  microscope : Option String
  detector_A : TwinDetCfg
  detector_B : TwinDetCfg
  detector_C : TwinDetCfg
  devstate : DevState
  status : String
deriving DecidableEq, Repr

/-- `DeviceASTwin.init_device`: no microscope, all three detectors at
`active=False, dwell_time=0.1, resolution=256`, state `INIT`. -/
def DeviceASTwin.init : DeviceASTwin :=
  { microscope := none
    detector_A := { active := false, dwell_time := 1/10, resolution := 256 }
    detector_B := { active := false, dwell_time := 1/10, resolution := 256 }
    detector_C := { active := false, dwell_time := 1/10, resolution := 256 }
    devstate := .INIT
    status := "Device initialized. Use Connect command to connect to microscope." }

/-- `write_detector_A_active`: stores the flag, no precondition. -/
def DeviceASTwin.write_detector_A_active (s : DeviceASTwin) (value : Bool) : DeviceASTwin :=
  { s with detector_A := { s.detector_A with active := value } }

/-- `write_detector_B_active`: stores the flag, no precondition. -/
def DeviceASTwin.write_detector_B_active (s : DeviceASTwin) (value : Bool) : DeviceASTwin :=
  { s with detector_B := { s.detector_B with active := value } }

/-- `write_detector_C_active`: stores the flag, no precondition. -/
def DeviceASTwin.write_detector_C_active (s : DeviceASTwin) (value : Bool) : DeviceASTwin :=
  { s with detector_C := { s.detector_C with active := value } }

/-- `write_detector_A_dwell_time`: raises if detector A is inactive,
otherwise stores the value — the source has no range check. -/
def DeviceASTwin.write_detector_A_dwell_time (s : DeviceASTwin) (value : ℚ) :
    Except PyError DeviceASTwin :=
  if !s.detector_A.active then .error (.detectorInactive "detector_A")
  else .ok { s with detector_A := { s.detector_A with dwell_time := value } }

/-- `write_detector_B_dwell_time`: raises if detector B is inactive,
otherwise stores the value — the source has no range check. -/
def DeviceASTwin.write_detector_B_dwell_time (s : DeviceASTwin) (value : ℚ) :
    Except PyError DeviceASTwin :=
  if !s.detector_B.active then .error (.detectorInactive "detector_B")
  else .ok { s with detector_B := { s.detector_B with dwell_time := value } }

/-- `write_detector_C_dwell_time`: raises if detector C is inactive,
otherwise stores the value — the source has no range check. -/
def DeviceASTwin.write_detector_C_dwell_time (s : DeviceASTwin) (value : ℚ) :
    Except PyError DeviceASTwin :=
  if !s.detector_C.active then .error (.detectorInactive "detector_C")
  else .ok { s with detector_C := { s.detector_C with dwell_time := value } }

/-- `write_detector_A_resolution`: raises if detector A is inactive,
otherwise stores the value — the source has no range check. -/
def DeviceASTwin.write_detector_A_resolution (s : DeviceASTwin) (value : ℤ) :
    Except PyError DeviceASTwin :=
  if !s.detector_A.active then .error (.detectorInactive "detector_A")
  else .ok { s with detector_A := { s.detector_A with resolution := value } }

/-- `write_detector_B_resolution`: raises if detector B is inactive,
otherwise stores the value — the source has no range check. -/
def DeviceASTwin.write_detector_B_resolution (s : DeviceASTwin) (value : ℤ) :
    Except PyError DeviceASTwin :=
  if !s.detector_B.active then .error (.detectorInactive "detector_B")
  else .ok { s with detector_B := { s.detector_B with resolution := value } }

/-- `write_detector_C_resolution`: raises if detector C is inactive,
otherwise stores the value — the source has no range check. -/
def DeviceASTwin.write_detector_C_resolution (s : DeviceASTwin) (value : ℤ) :
    Except PyError DeviceASTwin :=
  if !s.detector_C.active then .error (.detectorInactive "detector_C")
  else .ok { s with detector_C := { s.detector_C with resolution := value } }

/-- The name-dispatch of `DeviceASTwin.GetImage`: which configuration the
`if detector_name == 'detector_A': ... elif ...` chain selects. -/
def DeviceASTwin.detCfg (s : DeviceASTwin) (detector_name : String) : Option TwinDetCfg :=
  if detector_name = "detector_A" then some s.detector_A
  else if detector_name = "detector_B" then some s.detector_B
  else if detector_name = "detector_C" then some s.detector_C
  else none

/-- The per-detector tail of `DeviceASTwin.GetImage` once a configuration
has been selected: the `active` check, the
`total_time = dwell_time * resolution * resolution ≤ 600` check, and the
`try:` block that sets `RUNNING`, runs the (abstracted) synthesizer, and
ends in `STANDBY` on success or `FAULT` plus a re-raise on failure. -/
def DeviceASTwin.acquireCfg (synth : Except String (List (List ℚ))) (s : DeviceASTwin)
    (detector_name : String) (cfg : TwinDetCfg) : AcqOutcome DeviceASTwin :=
  if !cfg.active then
    { result := .error (.detectorInactive detector_name), dev := s, trace := [] }
  else
    let total_time := cfg.dwell_time * cfg.resolution * cfg.resolution
    if total_time > 600 then
      { result := .error (.acquisitionTooLong total_time 600), dev := s, trace := [] }
    else
      match synth with
      | .ok image =>
        { result := .ok image.flatten
          dev := { s with devstate := .STANDBY
                          status := "Image acquisition complete. Ready for next command." }
          trace := [.RUNNING, .STANDBY] }
      | .error e =>
        { result := .error (.underlying e)
          dev := { s with devstate := .FAULT
                          status := "Image acquisition failed: " ++ e }
          trace := [.RUNNING, .FAULT] }

/-- `DeviceASTwin.GetImage` with the `try:`-body work abstracted: checks the
microscope connection, dispatches on the detector name (raising the
unknown-detector error that lists `'detector_A'`, `'detector_B'`,
`'detector_C'`), then runs `acquireCfg` on the selected configuration. -/
def DeviceASTwin.GetImageWith (synth : Except String (List (List ℚ))) (s : DeviceASTwin)
    (detector_name : String) : AcqOutcome DeviceASTwin :=
  if s.microscope.isNone then
    { result := .error .notConnected, dev := s, trace := [] }
  else
    match s.detCfg detector_name with
    | none =>
      { result := .error (.unknownDetector detector_name
          ["detector_A", "detector_B", "detector_C"])
        dev := s, trace := [] }
    | some cfg => DeviceASTwin.acquireCfg synth s detector_name cfg

/-- `DeviceASTwin.GetImage` with the concrete digital-twin image
`(np.random.rand(resolution, resolution) * 255)`, which cannot fail. -/
def DeviceASTwin.GetImage (rand : ℕ → ℕ → ℚ) (s : DeviceASTwin)
    (detector_name : String) : AcqOutcome DeviceASTwin :=
  DeviceASTwin.GetImageWith
    (.ok (randomImage rand (((s.detCfg detector_name).map TwinDetCfg.resolution).getD 0).toNat))
    s detector_name

/-! ### endpoint parsing and `Connect` (both coordinator servers) -/

/-- The endpoint parsing shared by `DeviceASTwin.Connect` and
`MicroscopeSystemDevice.Connect`:

    if ":" in connection_string:
        host, port = connection_string.split(":")
        port = int(port)
    else:
        host = connection_string
        port = 9001

A split into more than two parts raises the tuple-unpack `ValueError`, a
non-integer port raises the `int()` `ValueError`; both escape before the
`try:` block.  Without a colon the port defaults to `9001`. -/
def parseConnectionString (s : String) : Except PyError (List Char × ℤ) :=
  if s.data.contains ':' then
    match splitOnChar ':' s.data with
    | [host, port] =>
      match pyParseInt port with
      | some p => .ok (host, p)
      | none => .error (.valueError
          ("invalid literal for int() with base 10: " ++ String.mk port))
    | _ => .error (.valueError "too many values to unpack (expected 2)")
  else .ok (s.data, 9001)

/-- Modelled from the spec: a well-formed endpoint in the sense of §4.4,
`host[:port]` — either no colon at all, or exactly one colon followed by
text that `int()` accepts as the port. -/
def specWellFormedEndpoint (s : String) : Bool :=
  match splitOnChar ':' s.data with
  | [_] => true
  | [_, port] => (pyParseInt port).isSome
  | _ => false

/-- State of the `MicroscopeSystemDevice` server. -/
structure MicroscopeSystemDevice where
  microscope : Option String
  connection_string : String
  devstate : DevState
  status : String
deriving DecidableEq, Repr

/-- `MicroscopeSystemDevice.init_device`: disconnected, empty connection
string, state `INIT`. -/
def MicroscopeSystemDevice.init : MicroscopeSystemDevice :=
  { microscope := none
    connection_string := ""
    devstate := .INIT
    status := "Microscope system initialized. Use Connect command." }

/-- The `connected` read attribute: `self._microscope is not None`. -/
def MicroscopeSystemDevice.connected (st : MicroscopeSystemDevice) : Bool :=
  st.microscope.isSome

/-- `MicroscopeSystemDevice.Connect` with the fallible `try:` body (in
production the `SdbMicroscopeClient` connection) abstracted into `u`.
Parse errors escape before the `try:`, leaving the state untouched; a body
error sets `FAULT`, sets the status to the failure text and re-raises; on
success the microscope handle is set (so `connected` becomes true), the
connection string `host:port` is recorded, and the state becomes `ON`. -/
def MicroscopeSystemDevice.ConnectWith (u : Except String Unit)
    (st : MicroscopeSystemDevice) (connection_string : String) :
    Except PyError String × MicroscopeSystemDevice :=
  match parseConnectionString connection_string with
  | .error e => (.error e, st)
  | .ok (host, port) =>
    match u with
    | .ok _ =>
      let msg := "Connected to microscope at " ++ String.mk host ++ ":" ++ toString port
      (.ok msg,
       { st with microscope := some "DigitalTwin"
                 connection_string := String.mk host ++ ":" ++ toString port
                 devstate := .ON
                 status := msg })
    | .error e =>
      (.error (.underlying e),
       { st with devstate := .FAULT, status := "Failed to connect: " ++ e })

/-- `MicroscopeSystemDevice.Connect` as written in the source, whose
`try:` body (`self._microscope = 'DigitalTwin'` and bookkeeping) cannot
fail. -/
def MicroscopeSystemDevice.Connect (st : MicroscopeSystemDevice)
    (connection_string : String) : Except PyError String × MicroscopeSystemDevice :=
  MicroscopeSystemDevice.ConnectWith (.ok ()) st connection_string

/-- `DeviceASTwin.Connect` with the fallible `try:` body abstracted: same
parsing; on success sets the microscope handle (`'Debugging'`) and state
`STANDBY` and returns the connection message (the twin records the endpoint
only inside that message); a body error sets `FAULT` and re-raises. -/
def DeviceASTwin.ConnectWith (u : Except String Unit) (s : DeviceASTwin)
    (connection_string : String) : Except PyError String × DeviceASTwin :=
  match parseConnectionString connection_string with
  | .error e => (.error e, s)
  | .ok (host, port) =>
    match u with
    | .ok _ =>
      let msg := "Connected to Digital Twin microscope at " ++ String.mk host ++ ":"
        ++ toString port
      (.ok msg, { s with microscope := some "Debugging", devstate := .STANDBY, status := msg })
    | .error e =>
      (.error (.underlying e),
       { s with devstate := .FAULT, status := "Failed to connect: " ++ e })

/-- `DeviceASTwin.Connect` as written (digital-twin body, cannot fail). -/
def DeviceASTwin.Connect (s : DeviceASTwin) (connection_string : String) :
    Except PyError String × DeviceASTwin :=
  DeviceASTwin.ConnectWith (.ok ()) s connection_string

/-! ### `Microscope` (Autoscript-min-Pytango/src/Microscope.py) -/

/-- The HAADF settings device read through a `DeviceProxy`. -/
structure HaadfDevice where
  dwell_time : ℚ
  image_width : ℤ
  image_height : ℤ
deriving DecidableEq, Repr

/-- `HAADF.init_device` defaults: `dwell_time=1e-6`, 1024×1024. -/
def HaadfDevice.init : HaadfDevice :=
  { dwell_time := 1/1000000, image_width := 1024, image_height := 1024 }

/-- State of the `Microscope` coordinator: the optional AutoScript client
and the detector-proxy registry (name → settings device). -/
structure Microscope where
  microscope : Option String
  detector_proxies : List (String × HaadfDevice)
deriving DecidableEq, Repr

/-- `self._detector_proxies.get(name)`. -/
def lookupProxy (ps : List (String × HaadfDevice)) (name : String) : Option HaadfDevice :=
  (ps.find? (fun p => p.1 = name)).map Prod.snd

/-- The metadata block of the `DevEncoded` result of
`Microscope.get_image`. -/
structure ImageMeta where
  detector : String
  shape : List ℤ
  dtype : String
  dwell_time : ℚ
  timestamp : ℚ
deriving DecidableEq, Repr

/-- `Microscope._acquire_stem_image`: the real AutoScript path is commented
out in the source, so the call always takes the simulation fallback
`rng.integers(0, 65535, size=(height, width), dtype=np.uint16)`; `rng i j`
is the sample at row `i`, column `j`, and `tobytes` flattens row-major. -/
def acquire_stem_image (rng : ℕ → ℕ → ℕ) (width height : ℕ) : List ℕ :=
  ((List.range height).map (fun i => (List.range width).map (fun j => rng i j))).flatten

/-- `Microscope.get_image`: lower-cases and strips the requested name, looks
it up in the proxy registry (throwing `UnknownDetector` with the list of
available names on a miss), reads the settings from the proxy, acquires
(always the simulation fallback — the connected-client branch of
`_acquire_stem_image` is a `pass`), and returns metadata plus raw
samples. -/
def Microscope.get_image (m : Microscope) (rng : ℕ → ℕ → ℕ) (now : ℚ)
    (detector_name : String) : Except PyError (ImageMeta × List ℕ) :=
  let name := pyNormalize detector_name
  match lookupProxy m.detector_proxies name with
  | none => .error (.unknownDetector name (m.detector_proxies.map Prod.fst))
  | some proxy =>
    .ok ({ detector := name
           shape := [proxy.image_height, proxy.image_width]
           dtype := "uint16"
           dwell_time := proxy.dwell_time
           timestamp := now },
         acquire_stem_image rng proxy.image_width.toNat proxy.image_height.toNat)

/-! ### concrete fixtures used by closed theorems -/

/-- Degenerate square-root stand-in for concrete evaluations (the radial
pattern's range does not depend on the square root's values). -/
def sqrt0 : ℚ → ℚ := fun _ => 0

/-- Concrete uniform sample source: every sample is 1/2. -/
def rand0 : ℕ → ℕ → ℚ := fun _ _ => 1/2

/-- Concrete integer sample source for the AutoScript simulation. -/
def rng0 : ℕ → ℕ → ℕ := fun _ _ => 7

/-- A twin device whose detector A has been activated
(`write_detector_A_active True` after `init_device`). -/
def twinActiveA : DeviceASTwin := DeviceASTwin.init.write_detector_A_active true

/-- A `DetectorDevice` observed in the `FAULT` state after a failed
acquisition: configuration intact (`active=True`, `dwell_time=1e-6`,
`resolution=4`), state `FAULT`. -/
def dFault : DetectorDevice :=
  { active := true
    dwell_time := 1/1000000
    resolution := 4
    detector_id := "A"
    devstate := .FAULT
    status := "Image acquisition failed: boom" }

/-- A `Microscope` coordinator with no AutoScript client (`_microscope is
None`, i.e. disconnected) whose registry holds the `haadf` proxy. -/
def mDisc : Microscope :=
  { microscope := none, detector_proxies := [("haadf", HaadfDevice.init)] }

/-- A small active noise detector (id `"C"`, resolution 2). -/
def dC2 : DetectorDevice :=
  { active := true
    dwell_time := 1
    resolution := 2
    detector_id := "C"
    devstate := .STANDBY
    status := "" }

/-- A freshly initialised detector device (name `sim/detector/detector_A`,
so id `"A"`) that has just been activated:
`write_active True` straight after `init_device`, every other setting at
its creation default. -/
def dC3 : DetectorDevice := (DetectorDevice.init "sim/detector/detector_A").write_active true

/-! ### helper lemmas -/

theorem length_dropWhile_le (p : α → Bool) (l : List α) :
    (l.dropWhile p).length ≤ l.length := by
  induction l with
  | nil => simp
  | cons a l ih =>
    by_cases h : p a <;> simp [List.dropWhile_cons, h]
    omega

theorem dropWhile_dropWhile (p : α → Bool) (l : List α) :
    (l.dropWhile p).dropWhile p = l.dropWhile p := by
  induction l with
  | nil => simp
  | cons a l ih =>
    by_cases h : p a <;> simp [List.dropWhile_cons, h, ih]

theorem stripLeft_stripLeft (l : List Char) : stripLeft (stripLeft l) = stripLeft l :=
  dropWhile_dropWhile pyIsSpace l

theorem stripRight_stripRight (l : List Char) : stripRight (stripRight l) = stripRight l := by
  unfold stripRight
  rw [List.reverse_reverse, stripLeft_stripLeft]

theorem stripRight_append (l : List Char) :
    ∃ t, l = stripRight l ++ t := by
  refine ⟨(l.reverse.takeWhile pyIsSpace).reverse, ?_⟩
  unfold stripRight stripLeft
  conv_lhs => rw [← List.reverse_reverse l, ← List.takeWhile_append_dropWhile (p := pyIsSpace) (l := l.reverse)]
  rw [List.reverse_append]

theorem stripLeft_stripRight_of_stripped (l : List Char) (h : stripLeft l = l) :
    stripLeft (stripRight l) = stripRight l := by
  obtain ⟨t, ht⟩ := stripRight_append l
  cases hsr : stripRight l with
  | nil => simp [stripLeft]
  | cons a s =>
    rw [hsr, List.cons_append] at ht
    unfold stripLeft at h ⊢
    by_cases ha : pyIsSpace a
    · exfalso
      rw [ht, List.dropWhile_cons_of_pos ha] at h
      have := length_dropWhile_le pyIsSpace (s ++ t)
      have hlen := congrArg List.length h
      rw [List.length_cons] at hlen
      omega
    · rw [List.dropWhile_cons_of_neg (by simp [ha])]

theorem pyStrip_pyStrip (l : List Char) : pyStrip (pyStrip l) = pyStrip l := by
  unfold pyStrip
  rw [stripLeft_stripRight_of_stripped (stripLeft l) (stripLeft_stripLeft l),
    stripRight_stripRight]

theorem pyLowerChar_toNat_of_upper (c : Char) (h : 65 ≤ c.toNat ∧ c.toNat ≤ 90) :
    (pyLowerChar c).toNat = c.toNat + 32 := by
  unfold pyLowerChar
  rw [dif_pos h]
  rfl

theorem pyLowerChar_pyLowerChar (c : Char) :
    pyLowerChar (pyLowerChar c) = pyLowerChar c := by
  by_cases h : 65 ≤ c.toNat ∧ c.toNat ≤ 90
  · have ht : (pyLowerChar c).toNat = c.toNat + 32 := pyLowerChar_toNat_of_upper c h
    unfold pyLowerChar
    rw [dif_neg (by rw [show (if h : 65 ≤ c.toNat ∧ c.toNat ≤ 90 then
      Char.ofNatAux (c.toNat + 32) (Or.inl (by omega)) else c) = pyLowerChar c from rfl, ht]; omega)]
  · unfold pyLowerChar
    rw [dif_neg h, dif_neg h]

theorem pyLower_pyLower (l : List Char) : pyLower (pyLower l) = pyLower l := by
  unfold pyLower
  rw [List.map_map]
  exact List.map_congr_left (fun c _ => pyLowerChar_pyLowerChar c)

theorem pyIsSpace_false_of_ge (c : Char) (h : 65 ≤ c.toNat) : pyIsSpace c = false := by
  have h1 : c ≠ ' ' := fun he => by subst he; exact absurd h (by decide)
  have h2 : c ≠ '\t' := fun he => by subst he; exact absurd h (by decide)
  have h3 : c ≠ '\n' := fun he => by subst he; exact absurd h (by decide)
  have h4 : c ≠ '\r' := fun he => by subst he; exact absurd h (by decide)
  have h5 : c ≠ '\x0b' := fun he => by subst he; exact absurd h (by decide)
  have h6 : c ≠ '\x0c' := fun he => by subst he; exact absurd h (by decide)
  simp [pyIsSpace, h1, h2, h3, h4, h5, h6]

theorem pyIsSpace_pyLowerChar (c : Char) : pyIsSpace (pyLowerChar c) = pyIsSpace c := by
  by_cases h : 65 ≤ c.toNat ∧ c.toNat ≤ 90
  · rw [pyIsSpace_false_of_ge _ (by rw [pyLowerChar_toNat_of_upper c h]; omega),
      pyIsSpace_false_of_ge _ h.1]
  · unfold pyLowerChar
    rw [dif_neg h]

theorem pyLower_dropWhile (l : List Char) :
    pyLower (l.dropWhile pyIsSpace) = (pyLower l).dropWhile pyIsSpace := by
  unfold pyLower
  rw [List.dropWhile_map]
  rw [show pyIsSpace ∘ pyLowerChar = pyIsSpace from funext fun c => pyIsSpace_pyLowerChar c]

theorem pyLower_stripLeft (l : List Char) :
    pyLower (stripLeft l) = stripLeft (pyLower l) := pyLower_dropWhile l

theorem pyLower_stripRight (l : List Char) :
    pyLower (stripRight l) = stripRight (pyLower l) := by
  unfold stripRight
  show pyLower (stripLeft l.reverse).reverse = _
  rw [show ∀ m : List Char, pyLower m.reverse = (pyLower m).reverse from
    fun m => List.map_reverse pyLowerChar m, pyLower_stripLeft,
    show pyLower l.reverse = (pyLower l).reverse from List.map_reverse pyLowerChar l]

theorem pyLower_pyStrip (l : List Char) :
    pyLower (pyStrip l) = pyStrip (pyLower l) := by
  unfold pyStrip
  rw [pyLower_stripRight, pyLower_stripLeft]

theorem pyNormalize_pyNormalize (s : String) :
    pyNormalize (pyNormalize s) = pyNormalize s := by
  unfold pyNormalize
  show String.mk (pyStrip (pyLower (pyStrip (pyLower s.data)))) = _
  rw [pyLower_pyStrip, pyLower_pyLower, pyStrip_pyStrip]

theorem length_linspace (a b : ℚ) (n : ℕ) : (linspace a b n).length = n := by
  unfold linspace
  by_cases h : n ≤ 1
  · rw [if_pos h, List.length_map, List.length_range]
  · rw [if_neg h, List.length_map, List.length_range]

theorem mem_linspace_zero_one (n : ℕ) (v : ℚ) (hv : v ∈ linspace 0 1 n) :
    0 ≤ v ∧ v ≤ 1 := by
  unfold linspace at hv
  by_cases h : n ≤ 1
  · rw [if_pos h] at hv
    obtain ⟨i, _, hi⟩ := List.mem_map.mp hv
    constructor <;> rw [← hi] <;> norm_num
  · rw [if_neg h] at hv
    obtain ⟨i, hi, hv⟩ := List.mem_map.mp hv
    have hin : i < n := List.mem_range.mp hi
    have hn2 : 2 ≤ n := by omega
    have hiq : (i : ℚ) ≤ (n : ℚ) - 1 := by
      have : (i : ℚ) + 1 ≤ (n : ℚ) := by exact_mod_cast hin
      linarith
    have hpos : (0 : ℚ) < (n : ℚ) - 1 := by
      have : (2 : ℚ) ≤ (n : ℚ) := by exact_mod_cast hn2
      linarith
    constructor
    · rw [← hv]
      positivity
    · rw [← hv]
      rw [show (0 : ℚ) + (1 - 0) * (i : ℚ) / ((n : ℚ) - 1) = (i : ℚ) / ((n : ℚ) - 1) by ring]
      rw [div_le_one hpos]
      exact hiq

theorem clip_zero_one_mem (x : ℚ) : 0 ≤ clip x 0 1 ∧ clip x 0 1 ≤ 1 := by
  unfold clip
  constructor
  · exact le_min (le_max_right x 0) (by norm_num)
  · exact min_le_right _ _

theorem gradientImage_shape (n : ℕ) :
    (gradientImage n).length = n ∧ ∀ row ∈ gradientImage n, row.length = n := by
  unfold gradientImage
  constructor
  · rw [List.length_map, length_linspace]
  · intro row hrow
    obtain ⟨yi, _, hr⟩ := List.mem_map.mp hrow
    rw [← hr, List.length_map, length_linspace]

theorem gradientImage_bounds (n : ℕ) :
    ∀ row ∈ gradientImage n, ∀ v ∈ row, 0 ≤ v ∧ v ≤ 255 := by
  intro row hrow v hv
  obtain ⟨yi, hyi, hr⟩ := List.mem_map.mp hrow
  rw [← hr] at hv
  obtain ⟨xj, hxj, hvv⟩ := List.mem_map.mp hv
  obtain ⟨hy0, hy1⟩ := mem_linspace_zero_one n yi hyi
  obtain ⟨hx0, hx1⟩ := mem_linspace_zero_one n xj hxj
  constructor
  · rw [← hvv]; positivity
  · rw [← hvv]; nlinarith

theorem radialImage_shape (sqrtFn : ℚ → ℚ) (n : ℕ) :
    (radialImage sqrtFn n).length = n ∧ ∀ row ∈ radialImage sqrtFn n, row.length = n := by
  unfold radialImage
  constructor
  · rw [List.length_map, length_linspace]
  · intro row hrow
    obtain ⟨yi, _, hr⟩ := List.mem_map.mp hrow
    rw [← hr, List.length_map, length_linspace]

theorem radialImage_bounds (sqrtFn : ℚ → ℚ) (n : ℕ) :
    ∀ row ∈ radialImage sqrtFn n, ∀ v ∈ row, 0 ≤ v ∧ v ≤ 255 := by
  intro row hrow v hv
  obtain ⟨yi, _, hr⟩ := List.mem_map.mp hrow
  rw [← hr] at hv
  obtain ⟨xj, _, hvv⟩ := List.mem_map.mp hv
  obtain ⟨hc0, hc1⟩ := clip_zero_one_mem (sqrtFn (xj ^ 2 + yi ^ 2))
  constructor
  · rw [← hvv]; nlinarith
  · rw [← hvv]; nlinarith

theorem randomImage_shape (rand : ℕ → ℕ → ℚ) (n : ℕ) :
    (randomImage rand n).length = n ∧ ∀ row ∈ randomImage rand n, row.length = n := by
  unfold randomImage
  constructor
  · simp
  · intro row hrow
    obtain ⟨i, _, hr⟩ := List.mem_map.mp hrow
    rw [← hr]
    simp

theorem randomImage_bounds (rand : ℕ → ℕ → ℚ) (n : ℕ)
    (hrand : ∀ i j, 0 ≤ rand i j ∧ rand i j < 1) :
    ∀ row ∈ randomImage rand n, ∀ v ∈ row, 0 ≤ v ∧ v ≤ 255 := by
  intro row hrow v hv
  obtain ⟨i, _, hr⟩ := List.mem_map.mp hrow
  rw [← hr] at hv
  obtain ⟨j, _, hvv⟩ := List.mem_map.mp hv
  obtain ⟨h0, h1⟩ := hrand i j
  constructor
  · rw [← hvv]; positivity
  · rw [← hvv]; nlinarith

theorem generate_simulated_image_shape (sqrtFn : ℚ → ℚ) (rand : ℕ → ℕ → ℚ)
    (d : DetectorDevice) :
    (d.generate_simulated_image sqrtFn rand).length = d.resolution.toNat ∧
      ∀ row ∈ d.generate_simulated_image sqrtFn rand, row.length = d.resolution.toNat := by
  unfold DetectorDevice.generate_simulated_image
  by_cases hA : d.detector_id = "A"
  · rw [if_pos hA]; exact gradientImage_shape _
  · rw [if_neg hA]
    by_cases hB : d.detector_id = "B"
    · rw [if_pos hB]; exact radialImage_shape _ _
    · rw [if_neg hB]; exact randomImage_shape _ _

theorem generate_simulated_image_bounds (sqrtFn : ℚ → ℚ) (rand : ℕ → ℕ → ℚ)
    (d : DetectorDevice) (hrand : ∀ i j, 0 ≤ rand i j ∧ rand i j < 1) :
    ∀ row ∈ d.generate_simulated_image sqrtFn rand, ∀ v ∈ row, 0 ≤ v ∧ v ≤ 255 := by
  unfold DetectorDevice.generate_simulated_image
  by_cases hA : d.detector_id = "A"
  · rw [if_pos hA]; exact gradientImage_bounds _
  · rw [if_neg hA]
    by_cases hB : d.detector_id = "B"
    · rw [if_pos hB]; exact radialImage_bounds _ _
    · rw [if_neg hB]; exact randomImage_bounds _ _ hrand

theorem flatten_length_square (xs : List (List ℚ)) (n : ℕ) (h1 : xs.length = n)
    (h2 : ∀ r ∈ xs, r.length = n) : xs.flatten.length = n * n := by
  rw [List.length_flatten, List.map_congr_left h2]
  simp [h1, List.map_const]

theorem mem_flatten_bounds (xs : List (List ℚ))
    (h : ∀ r ∈ xs, ∀ v ∈ r, 0 ≤ v ∧ v ≤ 255) :
    ∀ v ∈ xs.flatten, 0 ≤ v ∧ v ≤ 255 := by
  intro v hv
  obtain ⟨r, hr, hvr⟩ := List.mem_flatten.mp hv
  exact h r hr v hvr

theorem GetImageWith_inactive (synth : Except String (List (List ℚ))) (d : DetectorDevice)
    (h : d.active = false) :
    DetectorDevice.GetImageWith synth d =
      { result := .error (.detectorInactive d.detector_id), dev := d, trace := [] } := by
  unfold DetectorDevice.GetImageWith
  rw [if_pos (by simp [h])]

theorem GetImageWith_tooLong (synth : Except String (List (List ℚ))) (d : DetectorDevice)
    (ha : d.active = true) (ht : d.dwell_time * d.resolution * d.resolution > 600) :
    DetectorDevice.GetImageWith synth d =
      { result := .error (.acquisitionTooLong (d.dwell_time * d.resolution * d.resolution) 600)
        dev := d, trace := [] } := by
  unfold DetectorDevice.GetImageWith
  rw [if_neg (by simp [ha])]
  dsimp only
  rw [if_pos ht]

theorem GetImageWith_ok (image : List (List ℚ)) (d : DetectorDevice)
    (ha : d.active = true) (ht : ¬d.dwell_time * d.resolution * d.resolution > 600) :
    DetectorDevice.GetImageWith (.ok image) d =
      { result := .ok image.flatten
        dev := { d with devstate := .STANDBY
                        status := "Detector " ++ d.detector_id ++ " ready." }
        trace := [.RUNNING, .STANDBY] } := by
  unfold DetectorDevice.GetImageWith
  rw [if_neg (by simp [ha])]
  dsimp only
  rw [if_neg ht]

theorem GetImageWith_err (e : String) (d : DetectorDevice)
    (ha : d.active = true) (ht : ¬d.dwell_time * d.resolution * d.resolution > 600) :
    DetectorDevice.GetImageWith (.error e) d =
      { result := .error (.underlying e)
        dev := { d with devstate := .FAULT, status := "Image acquisition failed: " ++ e }
        trace := [.RUNNING, .FAULT] } := by
  unfold DetectorDevice.GetImageWith
  rw [if_neg (by simp [ha])]
  dsimp only
  rw [if_neg ht]

theorem acquireCfg_inactive (synth : Except String (List (List ℚ))) (s : DeviceASTwin)
    (name : String) (cfg : TwinDetCfg) (h : cfg.active = false) :
    DeviceASTwin.acquireCfg synth s name cfg =
      { result := .error (.detectorInactive name), dev := s, trace := [] } := by
  unfold DeviceASTwin.acquireCfg
  rw [if_pos (by simp [h])]

theorem acquireCfg_tooLong (synth : Except String (List (List ℚ))) (s : DeviceASTwin)
    (name : String) (cfg : TwinDetCfg) (ha : cfg.active = true)
    (ht : cfg.dwell_time * cfg.resolution * cfg.resolution > 600) :
    DeviceASTwin.acquireCfg synth s name cfg =
      { result := .error (.acquisitionTooLong (cfg.dwell_time * cfg.resolution * cfg.resolution) 600)
        dev := s, trace := [] } := by
  unfold DeviceASTwin.acquireCfg
  rw [if_neg (by simp [ha])]
  dsimp only
  rw [if_pos ht]

theorem acquireCfg_ok (image : List (List ℚ)) (s : DeviceASTwin)
    (name : String) (cfg : TwinDetCfg) (ha : cfg.active = true)
    (ht : ¬cfg.dwell_time * cfg.resolution * cfg.resolution > 600) :
    DeviceASTwin.acquireCfg (.ok image) s name cfg =
      { result := .ok image.flatten
        dev := { s with devstate := .STANDBY
                        status := "Image acquisition complete. Ready for next command." }
        trace := [.RUNNING, .STANDBY] } := by
  unfold DeviceASTwin.acquireCfg
  rw [if_neg (by simp [ha])]
  dsimp only
  rw [if_neg ht]

theorem acquireCfg_err (e : String) (s : DeviceASTwin)
    (name : String) (cfg : TwinDetCfg) (ha : cfg.active = true)
    (ht : ¬cfg.dwell_time * cfg.resolution * cfg.resolution > 600) :
    DeviceASTwin.acquireCfg (.error e) s name cfg =
      { result := .error (.underlying e)
        dev := { s with devstate := .FAULT, status := "Image acquisition failed: " ++ e }
        trace := [.RUNNING, .FAULT] } := by
  unfold DeviceASTwin.acquireCfg
  rw [if_neg (by simp [ha])]
  dsimp only
  rw [if_neg ht]

theorem twin_GetImageWith_notConnected (synth : Except String (List (List ℚ)))
    (s : DeviceASTwin) (name : String) (h : s.microscope = none) :
    DeviceASTwin.GetImageWith synth s name =
      { result := .error .notConnected, dev := s, trace := [] } := by
  unfold DeviceASTwin.GetImageWith
  rw [if_pos (by simp [h])]

theorem twin_GetImageWith_unknown (synth : Except String (List (List ℚ)))
    (s : DeviceASTwin) (name : String) (hm : s.microscope.isSome = true)
    (h : s.detCfg name = none) :
    DeviceASTwin.GetImageWith synth s name =
      { result := .error (.unknownDetector name ["detector_A", "detector_B", "detector_C"])
        dev := s, trace := [] } := by
  unfold DeviceASTwin.GetImageWith
  rw [if_neg (by simp [Option.isNone_iff_eq_none]; intro he; rw [he] at hm; simp at hm), h]

theorem twin_GetImageWith_dispatch (synth : Except String (List (List ℚ)))
    (s : DeviceASTwin) (name : String) (cfg : TwinDetCfg)
    (hm : s.microscope.isSome = true) (h : s.detCfg name = some cfg) :
    DeviceASTwin.GetImageWith synth s name = DeviceASTwin.acquireCfg synth s name cfg := by
  unfold DeviceASTwin.GetImageWith
  rw [if_neg (by simp [Option.isNone_iff_eq_none]; intro he; rw [he] at hm; simp at hm), h]

theorem GetImage_ok_inv (sqrtFn : ℚ → ℚ) (rand : ℕ → ℕ → ℚ) (d : DetectorDevice)
    (samples : List ℚ) (h : (d.GetImage sqrtFn rand).result = .ok samples) :
    samples = (d.generate_simulated_image sqrtFn rand).flatten := by
  unfold DetectorDevice.GetImage at h
  by_cases ha : d.active = true
  · by_cases ht : d.dwell_time * d.resolution * d.resolution > 600
    · rw [GetImageWith_tooLong _ d ha ht] at h
      simp at h
    · rw [GetImageWith_ok _ d ha ht] at h
      simpa using h.symm
  · rw [GetImageWith_inactive _ d (by simpa using ha)] at h
    simp at h

theorem twin_GetImage_ok_inv (rand : ℕ → ℕ → ℚ) (s : DeviceASTwin) (name : String)
    (cfg : TwinDetCfg) (samples : List ℚ) (hcfg : s.detCfg name = some cfg)
    (h : (s.GetImage rand name).result = .ok samples) :
    samples = (randomImage rand cfg.resolution.toNat).flatten := by
  unfold DeviceASTwin.GetImage at h
  rw [hcfg] at h
  by_cases hm : s.microscope.isSome = true
  · rw [twin_GetImageWith_dispatch _ s name cfg hm hcfg] at h
    by_cases ha : cfg.active = true
    · by_cases ht : cfg.dwell_time * cfg.resolution * cfg.resolution > 600
      · rw [acquireCfg_tooLong _ s name cfg ha ht] at h
        simp at h
      · rw [acquireCfg_ok _ s name cfg ha ht] at h
        simpa using h.symm
    · rw [acquireCfg_inactive _ s name cfg (by simpa using ha)] at h
      simp at h
  · rw [twin_GetImageWith_notConnected _ s name (by
      cases hms : s.microscope with
      | none => rfl
      | some v => rw [hms] at hm; simp at hm)] at h
    simp at h

/-- C1: for every detector (the generic `DetectorDevice` and each detector
selected inside `DeviceASTwin.GetImage`), acquisition checks its
preconditions in order with the first failure winning: an inactive detector
fails with the inactive-detector error whatever the time budget is;
otherwise a total time `dwell_time * resolution * resolution` above 600 s
fails with the too-long error carrying both the computed total time and the
600 s ceiling; and only when both checks pass does the call set `RUNNING`
(the `set_state` trace is empty on the failure paths and begins with
`RUNNING` exactly when both checks pass). -/
theorem acquire_precondition_order :
    (∀ (synth : Except String (List (List ℚ))) (d : DetectorDevice),
      (d.active = false →
        DetectorDevice.GetImageWith synth d =
          { result := .error (.detectorInactive d.detector_id), dev := d, trace := [] }) ∧
      (d.active = true → d.dwell_time * d.resolution * d.resolution > 600 →
        DetectorDevice.GetImageWith synth d =
          { result := .error (.acquisitionTooLong
              (d.dwell_time * d.resolution * d.resolution) 600)
            dev := d, trace := [] }) ∧
      (d.active = true → ¬d.dwell_time * d.resolution * d.resolution > 600 →
        (DetectorDevice.GetImageWith synth d).trace.head? = some DevState.RUNNING)) ∧
    (∀ (synth : Except String (List (List ℚ))) (s : DeviceASTwin) (name : String)
        (cfg : TwinDetCfg), s.microscope.isSome = true → s.detCfg name = some cfg →
      (cfg.active = false →
        DeviceASTwin.GetImageWith synth s name =
          { result := .error (.detectorInactive name), dev := s, trace := [] }) ∧
      (cfg.active = true → cfg.dwell_time * cfg.resolution * cfg.resolution > 600 →
        DeviceASTwin.GetImageWith synth s name =
          { result := .error (.acquisitionTooLong
              (cfg.dwell_time * cfg.resolution * cfg.resolution) 600)
            dev := s, trace := [] }) ∧
      (cfg.active = true → ¬cfg.dwell_time * cfg.resolution * cfg.resolution > 600 →
        (DeviceASTwin.GetImageWith synth s name).trace.head? = some DevState.RUNNING)) := by
  constructor
  · intro synth d
    refine ⟨fun ha => GetImageWith_inactive synth d ha,
      fun ha ht => GetImageWith_tooLong synth d ha ht, fun ha ht => ?_⟩
    cases synth with
    | ok image => rw [GetImageWith_ok image d ha ht]; rfl
    | error e => rw [GetImageWith_err e d ha ht]; rfl
  · intro synth s name cfg hm hcfg
    refine ⟨fun ha => ?_, fun ha ht => ?_, fun ha ht => ?_⟩
    · rw [twin_GetImageWith_dispatch synth s name cfg hm hcfg,
        acquireCfg_inactive synth s name cfg ha]
    · rw [twin_GetImageWith_dispatch synth s name cfg hm hcfg,
        acquireCfg_tooLong synth s name cfg ha ht]
    · rw [twin_GetImageWith_dispatch synth s name cfg hm hcfg]
      cases synth with
      | ok image => rw [acquireCfg_ok image s name cfg ha ht]; rfl
      | error e => rw [acquireCfg_err e s name cfg ha ht]; rfl

/-- Witness for C1: a freshly initialised (inactive) detector fails with the
inactive-detector error, and the faulted-but-admissible fixture starts
`RUNNING`. -/
theorem acquire_precondition_order_witness :
    DetectorDevice.GetImageWith (.ok []) (DetectorDevice.init "sim/det/detector_C") =
      { result := .error (.detectorInactive (DetectorDevice.init "sim/det/detector_C").detector_id)
        dev := DetectorDevice.init "sim/det/detector_C", trace := [] } ∧
    (DetectorDevice.GetImageWith (.ok []) dFault).trace.head? = some DevState.RUNNING :=
  ⟨(acquire_precondition_order.1 (.ok []) (DetectorDevice.init "sim/det/detector_C")).1 rfl,
   (acquire_precondition_order.1 (.ok []) dFault).2.2 rfl (by norm_num [dFault])⟩

/-- C2: every successful acquire returns a flat sample sequence of length
exactly `resolution * resolution` for the resolution stored in the detector
at the time of the call, the generated matrix has shape
`resolution × resolution`, and every sample lies in `[0, 255]` (given that
the uniform random source yields values in `[0, 1)`, as `np.random.rand`
does); this holds for `DetectorDevice.GetImage` and for
`DeviceASTwin.GetImage`. -/
theorem acquire_result_shape_and_range :
    (∀ (sqrtFn : ℚ → ℚ) (rand : ℕ → ℕ → ℚ) (d : DetectorDevice) (samples : List ℚ),
      (∀ i j, 0 ≤ rand i j ∧ rand i j < 1) →
      (d.GetImage sqrtFn rand).result = .ok samples →
      (d.generate_simulated_image sqrtFn rand).length = d.resolution.toNat ∧
      (∀ row ∈ d.generate_simulated_image sqrtFn rand, row.length = d.resolution.toNat) ∧
      samples.length = d.resolution.toNat * d.resolution.toNat ∧
      ∀ v ∈ samples, 0 ≤ v ∧ v ≤ 255) ∧
    (∀ (rand : ℕ → ℕ → ℚ) (s : DeviceASTwin) (name : String) (cfg : TwinDetCfg)
        (samples : List ℚ),
      (∀ i j, 0 ≤ rand i j ∧ rand i j < 1) →
      s.detCfg name = some cfg →
      (s.GetImage rand name).result = .ok samples →
      samples.length = cfg.resolution.toNat * cfg.resolution.toNat ∧
      ∀ v ∈ samples, 0 ≤ v ∧ v ≤ 255) := by
  constructor
  · intro sqrtFn rand d samples hrand h
    obtain ⟨h1, h2⟩ := generate_simulated_image_shape sqrtFn rand d
    have hs := GetImage_ok_inv sqrtFn rand d samples h
    subst hs
    exact ⟨h1, h2, flatten_length_square _ _ h1 h2,
      mem_flatten_bounds _ (generate_simulated_image_bounds sqrtFn rand d hrand)⟩
  · intro rand s name cfg samples hrand hcfg h
    obtain ⟨h1, h2⟩ := randomImage_shape rand cfg.resolution.toNat
    have hs := twin_GetImage_ok_inv rand s name cfg samples hcfg h
    subst hs
    exact ⟨flatten_length_square _ _ h1 h2,
      mem_flatten_bounds _ (randomImage_bounds rand cfg.resolution.toNat hrand)⟩

/-- Witness for C2: the 2×2 noise detector fixture acquires successfully and
the shape/range facts hold for its concrete output. -/
theorem acquire_result_shape_and_range_witness :
    (dC2.generate_simulated_image sqrt0 rand0).length = dC2.resolution.toNat ∧
    (∀ row ∈ dC2.generate_simulated_image sqrt0 rand0, row.length = dC2.resolution.toNat) ∧
    (dC2.generate_simulated_image sqrt0 rand0).flatten.length =
      dC2.resolution.toNat * dC2.resolution.toNat ∧
    ∀ v ∈ (dC2.generate_simulated_image sqrt0 rand0).flatten, 0 ≤ v ∧ v ≤ 255 :=
  acquire_result_shape_and_range.1 sqrt0 rand0 dC2 _
    (fun i j => by norm_num [rand0])
    (by rw [DetectorDevice.GetImage, GetImageWith_ok _ _ rfl (by norm_num [dC2])])

/-- C3: a detector left at its creation defaults (`dwell_time = 0.1`,
`resolution = 256`) and then made active fails its acquire with the
too-long error because `0.1 * 256 * 256 = 6553.6 > 600`; after writing
`dwell_time = 1e-6` (total `0.065536 s ≤ 600`) the same acquire
succeeds. -/
theorem default_config_exceeds_ceiling :
    dC3.active = true ∧ dC3.dwell_time = 1/10 ∧ dC3.resolution = 256 ∧
    (1/10 : ℚ) * 256 * 256 = 6553.6 ∧ (6553.6 : ℚ) > 600 ∧
    (dC3.GetImage sqrt0 rand0).result = .error (.acquisitionTooLong 6553.6 600) ∧
    ∃ d2, dC3.write_dwell_time (1/1000000) = .ok d2 ∧
      d2.dwell_time = 1/1000000 ∧ d2.resolution = 256 ∧
      (1/1000000 : ℚ) * 256 * 256 ≤ 600 ∧
      (d2.GetImage sqrt0 rand0).result.isOk = true := by
  refine ⟨rfl, rfl, rfl, by norm_num, by norm_num, ?_, ?_⟩
  · rw [DetectorDevice.GetImage, GetImageWith_tooLong _ _ rfl (by norm_num [dC3,
      DetectorDevice.init, DetectorDevice.write_active])]
    have : dC3.dwell_time * (dC3.resolution : ℚ) * (dC3.resolution : ℚ) = 6553.6 := by
      norm_num [dC3, DetectorDevice.init, DetectorDevice.write_active]
    rw [this]
  · refine ⟨{ dC3 with dwell_time := 1/1000000 }, ?_, rfl, rfl, by norm_num, ?_⟩
    · unfold DetectorDevice.write_dwell_time
      rw [if_neg (by norm_num [dC3, DetectorDevice.init, DetectorDevice.write_active]),
        if_neg (by norm_num)]
    · rw [DetectorDevice.GetImage, GetImageWith_ok _ _ rfl (by norm_num [dC3,
        DetectorDevice.init, DetectorDevice.write_active])]
      rfl

/-- C4 counterexample: on `DeviceASTwin`, `write_detector_A_dwell_time` has
no range check, so with detector A active the non-positive value `-1` is
stored successfully instead of failing with `InvalidParameter`. -/
theorem twin_dwell_time_stores_nonpositive :
    twinActiveA.detector_A.active = true ∧ (-1 : ℚ) ≤ 0 ∧
    twinActiveA.write_detector_A_dwell_time (-1) =
      .ok { twinActiveA with detector_A := { twinActiveA.detector_A with dwell_time := -1 } } ∧
    ({ twinActiveA with
        detector_A := { twinActiveA.detector_A with dwell_time := -1 } }).detector_A.dwell_time
      = -1 := by
  refine ⟨rfl, by norm_num, ?_, rfl⟩
  unfold DeviceASTwin.write_detector_A_dwell_time
  rw [if_neg (by simp [twinActiveA, DeviceASTwin.init, DeviceASTwin.write_detector_A_active])]

/-- C4 (amended): `DetectorDevice.write_dwell_time` fails with the
inactive-detector error whenever the detector is inactive, otherwise fails
with `InvalidParameter` whenever the value is non-positive, and otherwise
stores exactly the value; the `DeviceASTwin` per-detector writes check only
the active flag and store any value (no range check). -/
theorem setDwellTime_contract :
    (∀ (d : DetectorDevice) (v : ℚ),
      (d.active = false → d.write_dwell_time v = .error (.detectorInactive d.detector_id)) ∧
      (d.active = true → v ≤ 0 →
        d.write_dwell_time v = .error (.invalidParameter "Dwell time must be positive")) ∧
      (d.active = true → 0 < v → d.write_dwell_time v = .ok { d with dwell_time := v })) ∧
    (∀ (s : DeviceASTwin) (v : ℚ),
      (s.detector_A.active = false →
        s.write_detector_A_dwell_time v = .error (.detectorInactive "detector_A")) ∧
      (s.detector_A.active = true →
        s.write_detector_A_dwell_time v =
          .ok { s with detector_A := { s.detector_A with dwell_time := v } }) ∧
      (s.detector_B.active = false →
        s.write_detector_B_dwell_time v = .error (.detectorInactive "detector_B")) ∧
      (s.detector_B.active = true →
        s.write_detector_B_dwell_time v =
          .ok { s with detector_B := { s.detector_B with dwell_time := v } }) ∧
      (s.detector_C.active = false →
        s.write_detector_C_dwell_time v = .error (.detectorInactive "detector_C")) ∧
      (s.detector_C.active = true →
        s.write_detector_C_dwell_time v =
          .ok { s with detector_C := { s.detector_C with dwell_time := v } })) := by
  constructor
  · intro d v
    refine ⟨fun ha => ?_, fun ha hv => ?_, fun ha hv => ?_⟩
    · unfold DetectorDevice.write_dwell_time
      rw [if_pos (by simp [ha])]
    · unfold DetectorDevice.write_dwell_time
      rw [if_neg (by simp [ha]), if_pos hv]
    · unfold DetectorDevice.write_dwell_time
      rw [if_neg (by simp [ha]), if_neg (not_le.mpr hv)]
  · intro s v
    refine ⟨fun h => ?_, fun h => ?_, fun h => ?_, fun h => ?_, fun h => ?_, fun h => ?_⟩
    · unfold DeviceASTwin.write_detector_A_dwell_time
      rw [if_pos (by simp [h])]
    · unfold DeviceASTwin.write_detector_A_dwell_time
      rw [if_neg (by simp [h])]
    · unfold DeviceASTwin.write_detector_B_dwell_time
      rw [if_pos (by simp [h])]
    · unfold DeviceASTwin.write_detector_B_dwell_time
      rw [if_neg (by simp [h])]
    · unfold DeviceASTwin.write_detector_C_dwell_time
      rw [if_pos (by simp [h])]
    · unfold DeviceASTwin.write_detector_C_dwell_time
      rw [if_neg (by simp [h])]

/-- Witness for C4 (amended): positive in-range writes store exactly the
value on both devices. -/
theorem setDwellTime_contract_witness :
    dC2.write_dwell_time 2 = .ok { dC2 with dwell_time := 2 } ∧
    twinActiveA.write_detector_A_dwell_time 2 =
      .ok { twinActiveA with detector_A := { twinActiveA.detector_A with dwell_time := 2 } } :=
  ⟨(setDwellTime_contract.1 dC2 2).2.2 rfl (by norm_num),
   (setDwellTime_contract.2 twinActiveA 2).2.1 rfl⟩

/-- C5 counterexample: on `DeviceASTwin`, `write_detector_A_resolution` has
no range check, so with detector A active the out-of-range value `5000 >
4096` is stored successfully instead of failing with `InvalidParameter`. -/
theorem twin_resolution_stores_out_of_range :
    twinActiveA.detector_A.active = true ∧ (5000 : ℤ) > 4096 ∧
    twinActiveA.write_detector_A_resolution 5000 =
      .ok { twinActiveA with detector_A := { twinActiveA.detector_A with resolution := 5000 } } ∧
    ({ twinActiveA with
        detector_A := { twinActiveA.detector_A with resolution := 5000 } }).detector_A.resolution
      = 5000 := by
  refine ⟨rfl, by norm_num, ?_, rfl⟩
  unfold DeviceASTwin.write_detector_A_resolution
  rw [if_neg (by simp [twinActiveA, DeviceASTwin.init, DeviceASTwin.write_detector_A_active])]

/-- C5 (amended): `DetectorDevice.write_resolution` first checks the active
flag (failing with the inactive-detector error when inactive) and only then
the range, failing with `InvalidParameter` whenever the value is `< 1` or
`> 4096`, and storing exactly the value otherwise; the `DeviceASTwin`
per-detector resolution writes check only the active flag and store any
value (no range check). -/
theorem setResolution_contract :
    (∀ (d : DetectorDevice) (v : ℤ),
      (d.active = false → d.write_resolution v = .error (.detectorInactive d.detector_id)) ∧
      (d.active = true → v < 1 ∨ v > 4096 →
        d.write_resolution v = .error (.invalidParameter "Resolution must be between 1 and 4096")) ∧
      (d.active = true → 1 ≤ v → v ≤ 4096 →
        d.write_resolution v = .ok { d with resolution := v })) ∧
    (∀ (s : DeviceASTwin) (v : ℤ),
      (s.detector_A.active = false →
        s.write_detector_A_resolution v = .error (.detectorInactive "detector_A")) ∧
      (s.detector_A.active = true →
        s.write_detector_A_resolution v =
          .ok { s with detector_A := { s.detector_A with resolution := v } }) ∧
      (s.detector_B.active = false →
        s.write_detector_B_resolution v = .error (.detectorInactive "detector_B")) ∧
      (s.detector_B.active = true →
        s.write_detector_B_resolution v =
          .ok { s with detector_B := { s.detector_B with resolution := v } }) ∧
      (s.detector_C.active = false →
        s.write_detector_C_resolution v = .error (.detectorInactive "detector_C")) ∧
      (s.detector_C.active = true →
        s.write_detector_C_resolution v =
          .ok { s with detector_C := { s.detector_C with resolution := v } })) := by
  constructor
  · intro d v
    refine ⟨fun ha => ?_, fun ha hv => ?_, fun ha hv1 hv2 => ?_⟩
    · unfold DetectorDevice.write_resolution
      rw [if_pos (by simp [ha])]
    · unfold DetectorDevice.write_resolution
      rw [if_neg (by simp [ha]), if_pos (by omega)]
    · unfold DetectorDevice.write_resolution
      rw [if_neg (by simp [ha]), if_neg (by omega)]
  · intro s v
    refine ⟨fun h => ?_, fun h => ?_, fun h => ?_, fun h => ?_, fun h => ?_, fun h => ?_⟩
    · unfold DeviceASTwin.write_detector_A_resolution
      rw [if_pos (by simp [h])]
    · unfold DeviceASTwin.write_detector_A_resolution
      rw [if_neg (by simp [h])]
    · unfold DeviceASTwin.write_detector_B_resolution
      rw [if_pos (by simp [h])]
    · unfold DeviceASTwin.write_detector_B_resolution
      rw [if_neg (by simp [h])]
    · unfold DeviceASTwin.write_detector_C_resolution
      rw [if_pos (by simp [h])]
    · unfold DeviceASTwin.write_detector_C_resolution
      rw [if_neg (by simp [h])]

/-- Witness for C5 (amended): in-range writes store exactly the value, and
an out-of-range write on `DetectorDevice` fails with `InvalidParameter`. -/
theorem setResolution_contract_witness :
    dC2.write_resolution 1024 = .ok { dC2 with resolution := 1024 } ∧
    dC2.write_resolution 5000 =
      .error (.invalidParameter "Resolution must be between 1 and 4096") ∧
    twinActiveA.write_detector_A_resolution 1024 =
      .ok { twinActiveA with detector_A := { twinActiveA.detector_A with resolution := 1024 } } :=
  ⟨(setResolution_contract.1 dC2 1024).2.2 rfl (by norm_num) (by norm_num),
   (setResolution_contract.1 dC2 5000).2.1 rfl (by norm_num),
   (setResolution_contract.2 twinActiveA 1024).2.1 rfl⟩

/-- C6: when the synthesizer step fails during an acquisition (the `try:`
body raises with text `e`), the call fails by propagating the acquisition
failure, the state is set to `FAULT`, the status is set to the
acquisition-failed text containing the error text, and the stored
configuration (active flag, dwell time, resolution — and for the twin the
microscope handle and all three detector records) is exactly what it was
before the call; only the state and status change. -/
theorem acquisition_failure_frame :
    (∀ (e : String) (d : DetectorDevice),
      d.active = true → ¬d.dwell_time * d.resolution * d.resolution > 600 →
      (DetectorDevice.GetImageWith (.error e) d).result = .error (.underlying e) ∧
      (DetectorDevice.GetImageWith (.error e) d).dev.devstate = DevState.FAULT ∧
      (DetectorDevice.GetImageWith (.error e) d).dev.status = "Image acquisition failed: " ++ e ∧
      (DetectorDevice.GetImageWith (.error e) d).dev.active = d.active ∧
      (DetectorDevice.GetImageWith (.error e) d).dev.dwell_time = d.dwell_time ∧
      (DetectorDevice.GetImageWith (.error e) d).dev.resolution = d.resolution ∧
      (DetectorDevice.GetImageWith (.error e) d).dev.detector_id = d.detector_id ∧
      (DetectorDevice.GetImageWith (.error e) d).trace = [DevState.RUNNING, DevState.FAULT]) ∧
    (∀ (e : String) (s : DeviceASTwin) (name : String) (cfg : TwinDetCfg),
      s.microscope.isSome = true → s.detCfg name = some cfg →
      cfg.active = true → ¬cfg.dwell_time * cfg.resolution * cfg.resolution > 600 →
      (DeviceASTwin.GetImageWith (.error e) s name).result = .error (.underlying e) ∧
      (DeviceASTwin.GetImageWith (.error e) s name).dev.devstate = DevState.FAULT ∧
      (DeviceASTwin.GetImageWith (.error e) s name).dev.status =
        "Image acquisition failed: " ++ e ∧
      (DeviceASTwin.GetImageWith (.error e) s name).dev.microscope = s.microscope ∧
      (DeviceASTwin.GetImageWith (.error e) s name).dev.detector_A = s.detector_A ∧
      (DeviceASTwin.GetImageWith (.error e) s name).dev.detector_B = s.detector_B ∧
      (DeviceASTwin.GetImageWith (.error e) s name).dev.detector_C = s.detector_C ∧
      (DeviceASTwin.GetImageWith (.error e) s name).trace =
        [DevState.RUNNING, DevState.FAULT]) := by
  constructor
  · intro e d ha ht
    rw [GetImageWith_err e d ha ht]
    exact ⟨rfl, rfl, rfl, rfl, rfl, rfl, rfl, rfl⟩
  · intro e s name cfg hm hcfg ha ht
    rw [twin_GetImageWith_dispatch _ s name cfg hm hcfg, acquireCfg_err e s name cfg ha ht]
    exact ⟨rfl, rfl, rfl, rfl, rfl, rfl, rfl, rfl⟩

/-- Witness for C6: a concrete failing synthesizer on the 2×2 fixture. -/
theorem acquisition_failure_frame_witness :
    (DetectorDevice.GetImageWith (.error "boom") dC2).result = .error (.underlying "boom") ∧
    (DetectorDevice.GetImageWith (.error "boom") dC2).dev.devstate = DevState.FAULT ∧
    (DetectorDevice.GetImageWith (.error "boom") dC2).dev.status =
      "Image acquisition failed: " ++ "boom" ∧
    (DetectorDevice.GetImageWith (.error "boom") dC2).dev.active = dC2.active ∧
    (DetectorDevice.GetImageWith (.error "boom") dC2).dev.dwell_time = dC2.dwell_time ∧
    (DetectorDevice.GetImageWith (.error "boom") dC2).dev.resolution = dC2.resolution ∧
    (DetectorDevice.GetImageWith (.error "boom") dC2).dev.detector_id = dC2.detector_id ∧
    (DetectorDevice.GetImageWith (.error "boom") dC2).trace =
      [DevState.RUNNING, DevState.FAULT] :=
  acquisition_failure_frame.1 "boom" dC2 rfl (by norm_num [dC2])

/-- C9 counterexample: a detector observed in `FAULT` with `active=True` and
an admissible time budget begins a new acquisition on a direct `GetImage`
call — the state trace is `FAULT → RUNNING → STANDBY` with no intervening
configure or connect step — contradicting the claim that a Fault detector
never starts acquiring and leaves `Fault` only via reconfigure/reconnect. -/
theorem fault_detector_reacquires :
    dFault.devstate = DevState.FAULT ∧
    (dFault.GetImage sqrt0 rand0).trace = [DevState.RUNNING, DevState.STANDBY] ∧
    (dFault.GetImage sqrt0 rand0).result.isOk = true ∧
    (dFault.GetImage sqrt0 rand0).dev.devstate = DevState.STANDBY := by
  refine ⟨rfl, ?_, ?_, ?_⟩ <;>
    rw [DetectorDevice.GetImage, GetImageWith_ok _ _ rfl (by norm_num [dFault])] <;> rfl

/-- C9 (amended): `GetImage` never inspects the stored device state — its
result is identical from `Standby`, `Fault` or any other state; whenever the
active flag and the time budget admit the call it proceeds to `RUNNING`
regardless of the prior state (in particular straight from `Fault`), and the
`write_active` configuration write does not touch the device state, so an
explicit reconfigure is not what leaves `Fault` — any successful acquire
does. -/
theorem acquire_ignores_device_state :
    ∀ (synth : Except String (List (List ℚ))) (d : DetectorDevice) (st : DevState),
      ((DetectorDevice.GetImageWith synth { d with devstate := st }).result =
        (DetectorDevice.GetImageWith synth d).result) ∧
      (d.active = true → ¬d.dwell_time * d.resolution * d.resolution > 600 →
        (DetectorDevice.GetImageWith synth { d with devstate := st }).trace.head? =
          some DevState.RUNNING) ∧
      ((d.write_active true).devstate = d.devstate) := by
  intro synth d st
  refine ⟨?_, fun ha ht => ?_, rfl⟩
  · by_cases ha : d.active = true
    · by_cases ht : d.dwell_time * d.resolution * d.resolution > 600
      · rw [GetImageWith_tooLong synth { d with devstate := st } ha ht,
          GetImageWith_tooLong synth d ha ht]
      · cases synth with
        | ok image =>
          rw [GetImageWith_ok image { d with devstate := st } ha ht,
            GetImageWith_ok image d ha ht]
        | error e =>
          rw [GetImageWith_err e { d with devstate := st } ha ht,
            GetImageWith_err e d ha ht]
    · have ha' : d.active = false := by simpa using ha
      rw [GetImageWith_inactive synth { d with devstate := st } ha',
        GetImageWith_inactive synth d ha']
  · cases synth with
    | ok image => rw [GetImageWith_ok image { d with devstate := st } ha ht]; rfl
    | error e => rw [GetImageWith_err e { d with devstate := st } ha ht]; rfl

/-- Witness for C9 (amended): concrete instantiation on the faulted fixture,
showing the result from `FAULT` matches the result from the same
configuration in any other state and the trace starts `RUNNING`. -/
theorem acquire_ignores_device_state_witness :
    ((DetectorDevice.GetImageWith (.ok []) { dFault with devstate := DevState.FAULT }).result =
      (DetectorDevice.GetImageWith (.ok []) dFault).result) ∧
    (DetectorDevice.GetImageWith (.ok []) { dFault with devstate := DevState.FAULT }).trace.head? =
      some DevState.RUNNING :=
  ⟨(acquire_ignores_device_state (.ok []) dFault DevState.FAULT).1,
   (acquire_ignores_device_state (.ok []) dFault DevState.FAULT).2.1 rfl (by norm_num [dFault])⟩

/-- C7 counterexample: the `Microscope.py` coordinator performs no connected
check — with `_microscope is None` (disconnected) and `haadf` registered,
`get_image("haadf")` succeeds through the simulation fallback instead of
failing with `NotConnected`. -/
theorem microscope_acquire_without_connection :
    mDisc.microscope = none ∧
    (Microscope.get_image mDisc rng0 0 "haadf").isOk = true := by
  exact ⟨rfl, rfl⟩

/-- C7 (amended): on the `DeviceASTwin` coordinator the claim holds as
stated — `GetImage` fails `NotConnected` whenever the microscope handle is
absent (for every name, so the connected check precedes the registry
check), fails with the unknown-detector error enumerating the three
registered names when the name is unknown, and otherwise delegates to the
selected detector's acquisition logic, returning its result or propagating
its failure.  The `Microscope.py` coordinator has no connected check: an
unregistered (normalised) name fails with `UnknownDetector` enumerating the
registered names, and a registered name succeeds whether or not an
AutoScript client is connected. -/
theorem coordinator_acquire_contract :
    (∀ (synth : Except String (List (List ℚ))) (s : DeviceASTwin) (name : String),
      (s.microscope = none →
        DeviceASTwin.GetImageWith synth s name =
          { result := .error .notConnected, dev := s, trace := [] }) ∧
      (s.microscope.isSome = true → s.detCfg name = none →
        DeviceASTwin.GetImageWith synth s name =
          { result := .error (.unknownDetector name
              ["detector_A", "detector_B", "detector_C"])
            dev := s, trace := [] }) ∧
      (∀ cfg, s.microscope.isSome = true → s.detCfg name = some cfg →
        DeviceASTwin.GetImageWith synth s name = DeviceASTwin.acquireCfg synth s name cfg)) ∧
    (∀ (m : Microscope) (rng : ℕ → ℕ → ℕ) (now : ℚ) (dn : String),
      (lookupProxy m.detector_proxies (pyNormalize dn) = none →
        m.get_image rng now dn =
          .error (.unknownDetector (pyNormalize dn) (m.detector_proxies.map Prod.fst))) ∧
      (∀ proxy, lookupProxy m.detector_proxies (pyNormalize dn) = some proxy →
        (m.get_image rng now dn).isOk = true)) := by
  constructor
  · intro synth s name
    exact ⟨fun hm => twin_GetImageWith_notConnected synth s name hm,
      fun hm hn => twin_GetImageWith_unknown synth s name hm hn,
      fun cfg hm hcfg => twin_GetImageWith_dispatch synth s name cfg hm hcfg⟩
  · intro m rng now dn
    constructor
    · intro hnone
      unfold Microscope.get_image
      dsimp only
      rw [hnone]
    · intro proxy hsome
      unfold Microscope.get_image
      dsimp only
      rw [hsome]
      rfl

/-- Witness for C7 (amended): the freshly initialised twin is disconnected,
so any `GetImage` fails `NotConnected`; and the disconnected `Microscope`
fixture resolves its registered `haadf` proxy and succeeds. -/
theorem coordinator_acquire_contract_witness :
    DeviceASTwin.GetImageWith (.ok []) DeviceASTwin.init "detector_A" =
      { result := .error .notConnected, dev := DeviceASTwin.init, trace := [] } ∧
    (Microscope.get_image mDisc rng0 0 "HAADF").isOk = true :=
  ⟨(coordinator_acquire_contract.1 (.ok []) DeviceASTwin.init "detector_A").1 rfl,
   (coordinator_acquire_contract.2 mDisc rng0 0 "HAADF").2 HaadfDevice.init rfl⟩

theorem splitOnChar_ne_nil (sep : Char) (l : List Char) : splitOnChar sep l ≠ [] := by
  induction l with
  | nil => simp [splitOnChar]
  | cons c rest ih =>
    unfold splitOnChar
    by_cases h : c = sep
    · simp [h]
    · dsimp only
      rw [if_neg h]
      cases hr : splitOnChar sep rest with
      | nil => simp
      | cons a t => simp

theorem contains_iff_split_two (sep : Char) (l : List Char) :
    l.contains sep = true ↔ 2 ≤ (splitOnChar sep l).length := by
  induction l with
  | nil => simp [splitOnChar]
  | cons c rest ih =>
    unfold splitOnChar
    by_cases h : c = sep
    · subst h
      dsimp only
      rw [if_pos rfl]
      simp only [List.contains_cons, beq_self_eq_true, Bool.true_or, List.length_cons]
      constructor
      · intro _
        have := List.length_pos.mpr (splitOnChar_ne_nil c rest)
        omega
      · intro _
        trivial
    · dsimp only
      rw [if_neg h]
      cases hr : splitOnChar sep rest with
      | nil => exact absurd hr (splitOnChar_ne_nil sep rest)
      | cons a t =>
        rw [hr] at ih
        simp only [List.contains_cons, List.length_cons]
        rw [show (sep == c) = false from beq_eq_false_iff_ne.mpr fun he => h he.symm]
        simpa using ih

theorem parse_error_of_not_wellFormed (s : String)
    (h : specWellFormedEndpoint s = false) :
    ∃ msg, parseConnectionString s = .error (.valueError msg) := by
  unfold specWellFormedEndpoint at h
  unfold parseConnectionString
  cases hsp : splitOnChar ':' s.data with
  | nil => exact absurd hsp (splitOnChar_ne_nil ':' s.data)
  | cons a t =>
    cases t with
    | nil => rw [hsp] at h; simp at h
    | cons b t2 =>
      have hc : s.data.contains ':' = true := by
        rw [contains_iff_split_two, hsp]
        simp
      cases t2 with
      | nil =>
        rw [hsp] at h
        dsimp only at h
        have hb : pyParseInt b = none := by
          cases hpb : pyParseInt b with
          | none => rfl
          | some v => rw [hpb] at h; simp at h
        rw [if_pos hc]
        dsimp only
        rw [hb]
        exact ⟨_, rfl⟩
      | cons c t3 =>
        rw [if_pos hc]
        dsimp only
        exact ⟨_, rfl⟩

/-- C8: `Connect` parses `host[:port]`, defaulting the port to 9001 when
there is no colon; every endpoint string that is not of the form
`host[:port]` (more than one colon, or a port that `int()` rejects) fails
with the `ValueError` of the parse — the spec's `InvalidEndpoint` — raised
before the `try:` block, leaving the device untouched; on success
`connected` becomes true and the endpoint `host:port` is recorded in
`connection_string` and in the returned message (on the twin, which has no
connection-string attribute, in the returned message); and when the
underlying connection step raises, the state is set to `FAULT` and the
error propagates. -/
theorem connect_contract :
    ∀ (u : Except String Unit) (st : MicroscopeSystemDevice) (s : String),
      (s.data.contains ':' = false → parseConnectionString s = .ok (s.data, 9001)) ∧
      (specWellFormedEndpoint s = false →
        ∃ msg, MicroscopeSystemDevice.ConnectWith u st s = (.error (.valueError msg), st)) ∧
      (∀ host port, parseConnectionString s = .ok (host, port) →
        (MicroscopeSystemDevice.Connect st s).2.connected = true ∧
        (MicroscopeSystemDevice.Connect st s).2.connection_string =
          String.mk host ++ ":" ++ toString port ∧
        (MicroscopeSystemDevice.Connect st s).1 =
          .ok ("Connected to microscope at " ++ String.mk host ++ ":" ++ toString port)) ∧
      (∀ host port e, parseConnectionString s = .ok (host, port) →
        (MicroscopeSystemDevice.ConnectWith (.error e) st s).1 = .error (.underlying e) ∧
        (MicroscopeSystemDevice.ConnectWith (.error e) st s).2.devstate = DevState.FAULT) ∧
      (∀ (tw : DeviceASTwin) host port, parseConnectionString s = .ok (host, port) →
        (tw.Connect s).2.microscope.isSome = true ∧
        (tw.Connect s).2.devstate = DevState.STANDBY ∧
        (tw.Connect s).1 =
          .ok ("Connected to Digital Twin microscope at " ++ String.mk host ++ ":"
            ++ toString port)) := by
  intro u st s
  refine ⟨?_, ?_, ?_, ?_, ?_⟩
  · intro h
    unfold parseConnectionString
    rw [if_neg (by simp only [h]; simp)]
  · intro h
    obtain ⟨msg, hmsg⟩ := parse_error_of_not_wellFormed s h
    refine ⟨msg, ?_⟩
    unfold MicroscopeSystemDevice.ConnectWith
    rw [hmsg]
  · intro host port hp
    unfold MicroscopeSystemDevice.Connect MicroscopeSystemDevice.ConnectWith
    rw [hp]
    exact ⟨rfl, rfl, rfl⟩
  · intro host port e hp
    unfold MicroscopeSystemDevice.ConnectWith
    rw [hp]
    exact ⟨rfl, rfl⟩
  · intro tw host port hp
    unfold DeviceASTwin.Connect DeviceASTwin.ConnectWith
    rw [hp]
    exact ⟨rfl, rfl, rfl⟩

/-- Witness for C8: `"localhost"` (no colon) parses with the default port
9001 and connecting with it records `localhost:9001` and sets `connected`;
the malformed `"a:b:c"` fails with a `ValueError` leaving the device
untouched; a failing underlying step faults the device. -/
theorem connect_contract_witness :
    parseConnectionString "localhost" = .ok ("localhost".data, 9001) ∧
    (∃ msg, MicroscopeSystemDevice.ConnectWith (.ok ()) MicroscopeSystemDevice.init "a:b:c" =
      (.error (.valueError msg), MicroscopeSystemDevice.init)) ∧
    (MicroscopeSystemDevice.Connect MicroscopeSystemDevice.init "localhost").2.connected = true ∧
    (MicroscopeSystemDevice.Connect MicroscopeSystemDevice.init "localhost").2.connection_string =
      String.mk "localhost".data ++ ":" ++ toString (9001 : ℤ) ∧
    (MicroscopeSystemDevice.ConnectWith (.error "refused") MicroscopeSystemDevice.init
      "localhost:9001").2.devstate = DevState.FAULT :=
  ⟨(connect_contract (.ok ()) MicroscopeSystemDevice.init "localhost").1 (by decide),
   (connect_contract (.ok ()) MicroscopeSystemDevice.init "a:b:c").2.1 (by decide),
   ((connect_contract (.ok ()) MicroscopeSystemDevice.init "localhost").2.2.1 "localhost".data 9001
     ((connect_contract (.ok ()) MicroscopeSystemDevice.init "localhost").1 (by decide))).1,
   ((connect_contract (.ok ()) MicroscopeSystemDevice.init "localhost").2.2.1 "localhost".data 9001
     ((connect_contract (.ok ()) MicroscopeSystemDevice.init "localhost").1 (by decide))).2.1,
   ((connect_contract (.error "refused") MicroscopeSystemDevice.init "localhost:9001").2.2.2.1
     "localhost".data 9001 "refused" rfl).2⟩

/-- C10: `Microscope.get_image` normalises the requested detector name by
lower-casing and then stripping surrounding whitespace before the registry
lookup, so for every name `n` and every string `s` with
`s.lower().strip() == n`, `get_image(s)` resolves to the same registry
entry and succeeds or fails exactly as `get_image(n)` does (normalisation
is idempotent, so the two calls are equal outright). -/
theorem get_image_normalizes_name :
    ∀ (m : Microscope) (rng : ℕ → ℕ → ℕ) (now : ℚ) (n s : String),
      pyNormalize s = n → m.get_image rng now s = m.get_image rng now n := by
  intro m rng now n s h
  unfold Microscope.get_image
  rw [← h, pyNormalize_pyNormalize]

/-- Witness for C10: `"  HAADF "` normalises to `"haadf"`, so the two
lookups coincide on the concrete coordinator fixture. -/
theorem get_image_normalizes_name_witness :
    Microscope.get_image mDisc rng0 0 "  HAADF " = Microscope.get_image mDisc rng0 0 "haadf" :=
  get_image_normalizes_name mDisc rng0 0 "haadf" "  HAADF " (by decide)
